import Mathlib

/-!
Verification of the BlenderKit `daemon_lib.py` module: a shallow embedding of
the port registry, report-fetch fallback, request gateway, health prober,
status notifier, exit-code classifier and daemon launcher, with theorems
checking the module's specified behaviour.

Ports are modelled as naturals; HTTP and process-spawn outcomes are supplied
as explicit parameters (the environment), so every function is pure and
executable.
-/

namespace DaemonLib

/-- Python's `list.index(p)`: index of the first occurrence of `p`,
`none` when `p` is absent (where Python raises `ValueError`). -/
def pyIndex (l : List Nat) (p : Nat) : Option Nat :=
  match l with
  | [] => none
  | x :: xs => if x = p then some 0 else (pyIndex xs p).map (· + 1)

/-- `reorder_ports` (daemon_lib.py lines 31-34):
`i = DAEMON_PORTS.index(port)` then
`DAEMON_PORTS = DAEMON_PORTS[i:] + DAEMON_PORTS[:i]`.
Returns `none` when the index lookup raises (port absent). -/
def reorder_ports (ports : List Nat) (p : Nat) : Option (List Nat) :=
  match pyIndex ports p with
  | none => none
  | some i => some (ports.drop i ++ ports.take i)

/-- The mutable globals of `global_vars` that `daemon_lib.py` touches. -/
structure GlobalVars where
  DAEMON_PORTS : List Nat
  DAEMON_FAILED_REPORTS : Nat
  deriving Repr, DecidableEq

/-- A Python exception value: either a raised exception carrying a message,
or the degenerate `raise None` / `IndexError` cases, carried as `none`. -/
abbrev PyExc := Option String

/-- The call `reorder_ports(port)` as a state transformer on the globals:
the index lookup happens first, so on `ValueError` the registry assignment
never executes and the globals are returned unchanged. -/
def reorder_ports_state (g : GlobalVars) (p : Nat) : Except PyExc Unit × GlobalVars :=
  match reorder_ports g.DAEMON_PORTS p with
  | none => (Except.error (some "ValueError"), g)
  | some l => (Except.ok (), { g with DAEMON_PORTS := l })

/-- `get_port` (line 24): `DAEMON_PORTS[0]`, an `IndexError` (none) on an
empty registry. -/
def get_port (g : GlobalVars) : Option Nat :=
  g.DAEMON_PORTS.head?

/-- Outcome of one `request_report` HTTP call against a port: a parsed
report body, or a raised requests exception with its message. -/
inductive NetResult where
  | ok (report : String)
  | err (e : String)
  deriving Repr, DecidableEq

/-- The fallback loop of `get_reports` (lines 54-65): try each port in order,
returning the first successful report together with the port that produced it,
and remembering the last exception otherwise.  The second component is the
list of ports actually queried, in order. -/
def fallback_loop (net : Nat → NetResult) (ports : List Nat) (lastExc : PyExc) :
    Except PyExc (String × Nat) × List Nat :=
  match ports with
  | [] => (Except.error lastExc, [])
  | p :: rest =>
    match net p with
    | NetResult.ok r => (Except.ok (r, p), [p])
    | NetResult.err e =>
      let rec_result := fallback_loop net rest (some e)
      (rec_result.1, p :: rec_result.2)

/-- Result of one `get_reports` call: the returned report or raised exception,
the globals afterwards, and the list of ports queried in order. -/
structure ReportsOutcome where
  result : Except PyExc String
  gvars : GlobalVars
  queried : List Nat
  deriving Repr

/-- `get_reports` (lines 44-65).  When `DAEMON_FAILED_REPORTS < 10` only the
default port (registry head) is queried and the registry is untouched;
otherwise the fallback loop runs over the whole registry and the first
successful port is promoted with `reorder_ports`.  `net` gives the outcome of
`request_report` against each port. -/
def get_reports (net : Nat → NetResult) (g : GlobalVars) : ReportsOutcome :=
  if g.DAEMON_FAILED_REPORTS < 10 then
    match g.DAEMON_PORTS.head? with
    | none => ⟨Except.error none, g, []⟩
    | some p =>
      match net p with
      | NetResult.ok r => ⟨Except.ok r, g, [p]⟩
      | NetResult.err e => ⟨Except.error (some e), g, [p]⟩
  else
    match fallback_loop net g.DAEMON_PORTS none with
    | (Except.ok (r, p), tr) =>
      ⟨Except.ok r,
       { g with DAEMON_PORTS := (reorder_ports g.DAEMON_PORTS p).getD g.DAEMON_PORTS },
       tr⟩
    | (Except.error e, tr) => ⟨Except.error e, g, tr⟩

/-- Modelled from the spec: the periodic report-fetch caller (the timer code
that calls `get_reports`, which is outside this module) maintains the global
consecutive-failure counter, incrementing `DAEMON_FAILED_REPORTS` whenever
`get_reports` raises and leaving it unchanged on success. -/
def get_reports_timer (net : Nat → NetResult) (g : GlobalVars) : ReportsOutcome :=
  let o := get_reports net g
  match o.result with
  | Except.ok _ => o
  | Except.error _ =>
    { o with gvars := { o.gvars with
        DAEMON_FAILED_REPORTS := o.gvars.DAEMON_FAILED_REPORTS + 1 } }

/-! ### Request gateway: the parameters each feature call passes to `requests` -/

/-- A JSON value in a request body: the caller process id (`os.getpid()`),
the API key read from the add-on preferences, or an opaque value passed
through from the caller. -/
inductive JsonVal where
  | pid
  | apiKeyPref
  | val (s : String)
  deriving Repr, DecidableEq

/-- Python dict assignment `d[k] = v`: replace the value when the key is
present (keeping its position), append the pair otherwise. -/
def dictSet (d : List (String × JsonVal)) (k : String) (v : JsonVal) :
    List (String × JsonVal) :=
  if d.any (fun kv => kv.1 = k) then
    d.map (fun kv => if kv.1 = k then (k, v) else kv)
  else d ++ [(k, v)]

/-- `TIMEOUT = (0.1, 0.5)` (line 16), in milliseconds: 100 ms connect,
500 ms read. -/
def TIMEOUT : Nat × Nat := (100, 500)

/-- One HTTP request as issued by a gateway function: method, path under the
daemon address, the explicit `timeout` keyword (in ms) if any, the explicit
`proxies` keyword if any (`some []` is the literal empty mapping), and the
JSON body if any. -/
structure Request where
  method : String
  path : String
  timeout : Option (Nat × Nat)
  proxies : Option (List (String × String))
  body : Option (List (String × JsonVal))
  deriving Repr, DecidableEq

/-- `request_report` as called from `get_reports` (lines 48-51, 68-71):
`session.get(url, json=data, timeout=TIMEOUT, proxies={})` with
`data = {'app_id': app_id, 'api_key': api_key}` from the caller's args. -/
def get_reports_req (app_id api_key : String) : Request :=
  ⟨"GET", "/report", some TIMEOUT, some [],
   some [("app_id", JsonVal.val app_id), ("api_key", JsonVal.val api_key)]⟩

/-- `search_asset` (lines 74-83): `data['app_id'] = os.getpid()` then
`session.post(url, json=data, timeout=TIMEOUT, proxies={})`. -/
def search_asset_req (data : List (String × JsonVal)) : Request :=
  ⟨"POST", "/search_asset", some TIMEOUT, some [],
   some (dictSet data "app_id" JsonVal.pid)⟩

/-- `download_asset` (lines 86-93). -/
def download_asset_req (data : List (String × JsonVal)) : Request :=
  ⟨"POST", "/download_asset", some TIMEOUT, some [],
   some (dictSet data "app_id" JsonVal.pid)⟩

/-- `upload_asset` (lines 96-108). -/
def upload_asset_req (upload_data export_data upload_set : JsonVal) : Request :=
  ⟨"POST", "/upload_asset", some TIMEOUT, some [],
   some [("app_id", JsonVal.pid), ("upload_data", upload_data),
         ("export_data", export_data), ("upload_set", upload_set)]⟩

/-- `kill_download` (lines 111-117): body is only `{'task_id': task_id}`. -/
def kill_download_req (task_id : JsonVal) : Request :=
  ⟨"GET", "/kill_download", some TIMEOUT, some [], some [("task_id", task_id)]⟩

/-- `fetch_gravatar_image` (lines 121-125): no `timeout` and no `proxies`
keyword is passed. -/
def fetch_gravatar_image_req (author_data : List (String × JsonVal)) : Request :=
  ⟨"GET", "/profiles/fetch_gravatar_image", none, none,
   some (dictSet author_data "app_id" JsonVal.pid)⟩

/-- `get_user_profile` (lines 127-131): no `timeout`, no `proxies`. -/
def get_user_profile_req (api_key : JsonVal) : Request :=
  ⟨"GET", "/profiles/get_user_profile", none, none,
   some [("api_key", api_key), ("app_id", JsonVal.pid)]⟩

/-- `get_comments` (lines 135-143): no `timeout`, no `proxies`. -/
def get_comments_req (asset_id api_key : JsonVal) : Request :=
  ⟨"POST", "/comments/get_comments", none, none,
   some [("asset_id", asset_id), ("api_key", api_key), ("app_id", JsonVal.pid)]⟩

/-- `create_comment` (lines 145-155): no `timeout`, no `proxies`. -/
def create_comment_req (asset_id comment_text api_key reply_to_id : JsonVal) :
    Request :=
  ⟨"POST", "/comments/create_comment", none, none,
   some [("asset_id", asset_id), ("comment_text", comment_text),
         ("api_key", api_key), ("reply_to_id", reply_to_id),
         ("app_id", JsonVal.pid)]⟩

/-- `feedback_comment` (lines 157-167): no `timeout`, no `proxies`. -/
def feedback_comment_req (asset_id comment_id api_key flag : JsonVal) : Request :=
  ⟨"POST", "/comments/feedback_comment", none, none,
   some [("asset_id", asset_id), ("comment_id", comment_id),
         ("api_key", api_key), ("flag", flag), ("app_id", JsonVal.pid)]⟩

/-- `mark_comment_private` (lines 169-179): no `timeout`, no `proxies`. -/
def mark_comment_private_req (asset_id comment_id api_key is_private : JsonVal) :
    Request :=
  ⟨"POST", "/comments/mark_comment_private", none, none,
   some [("asset_id", asset_id), ("comment_id", comment_id),
         ("api_key", api_key), ("is_private", is_private),
         ("app_id", JsonVal.pid)]⟩

/-- `mark_notification_read` (lines 182-190): no `timeout`, no `proxies`. -/
def mark_notification_read_req (notification_id : JsonVal) : Request :=
  ⟨"POST", "/notifications/mark_notification_read", none, none,
   some [("notification_id", notification_id), ("api_key", JsonVal.apiKeyPref),
         ("app_id", JsonVal.pid)]⟩

/-- `report_usages` (lines 193-199): mutates the caller's dict, then posts it
with no `timeout` and no `proxies`. -/
def report_usages_req (report : List (String × JsonVal)) : Request :=
  ⟨"POST", "/report_usages", none, none,
   some (dictSet (dictSet report "api_key" JsonVal.apiKeyPref) "app_id" JsonVal.pid)⟩

/-- `send_code_verifier` (lines 203-207): body is only
`{'code_verifier': code_verifier}`. -/
def send_code_verifier_req (code_verifier : JsonVal) : Request :=
  ⟨"POST", "/code_verifier", some TIMEOUT, some [],
   some [("code_verifier", code_verifier)]⟩

/-- `get_download_url` (lines 211-225): no `timeout`, no `proxies`. -/
def get_download_url_req (asset_data prefs : JsonVal) : Request :=
  ⟨"GET", "/wrappers/get_download_url", none, none,
   some [("app_id", JsonVal.pid), ("resolution", JsonVal.val "blend"),
         ("asset_data", asset_data), ("PREFS", prefs)]⟩

/-- `refresh_token` (lines 228-233): body is only `{'refresh_token': ...}`. -/
def refresh_token_req (token : JsonVal) : Request :=
  ⟨"GET", "/refresh_token", some TIMEOUT, some [],
   some [("refresh_token", token)]⟩

/-- The probe of `daemon_is_alive` (lines 236-246): bare GET to the root
address, no body. -/
def daemon_is_alive_req : Request :=
  ⟨"GET", "/", some TIMEOUT, some [], none⟩

/-- `report_blender_quit` (lines 249-254). -/
def report_blender_quit_req : Request :=
  ⟨"GET", "/report_blender_quit", some TIMEOUT, some [],
   some [("app_id", JsonVal.pid)]⟩

/-- `kill_daemon_server` (lines 257-263): GET to `/shutdown` with no body. -/
def kill_daemon_server_req : Request :=
  ⟨"GET", "/shutdown", some TIMEOUT, some [], none⟩

/-- Whether a request body carries the caller identity field `app_id` set to
the calling process's pid. -/
def hasAppId (r : Request) : Bool :=
  match r.body with
  | none => false
  | some b => b.any (fun kv => kv.1 = "app_id" && kv.2 = JsonVal.pid)

/-! ### Health prober -/

/-- Outcome of the probe's `session.get`: a completed HTTP response with a
status code and body text, a `requests.exceptions.ConnectionError` carrying
the error description and its type name, or any other transport exception. -/
inductive ProbeOutcome where
  | response (status : Nat) (text : String)
  | connectionError (err errType : String)
  | otherError (e : String)
  deriving Repr, DecidableEq

/-- `daemon_is_alive` (lines 236-246).  Only `ConnectionError` is caught;
every other exception propagates (modelled as `Except.error`). -/
def daemon_is_alive (o : ProbeOutcome) : Except String (Bool × String) :=
  match o with
  | ProbeOutcome.response status text =>
    if status ≠ 200 then
      Except.ok (false, "Server response not 200: " ++ toString status)
    else
      Except.ok (true, "Server alive, PID: " ++ text)
  | ProbeOutcome.connectionError err errType =>
    Except.ok (false, "EXCEPTION OCCURED:\", " ++ err ++ ", " ++ errType)
  | ProbeOutcome.otherError e => Except.error e

/-! ### Status notifier -/

/-- `handle_daemon_status_task` (lines 266-283).  Input: the stored
`DAEMON_ONLINE` flag and the probe's `online_status`; output: the new flag,
the user reports emitted, and the logo status written to the UI (if any). -/
def handle_daemon_status_task (netloc : String) (online : Bool) (status : Nat) :
    Bool × List String × Option String :=
  if status = 200 then
    if online = false then
      (true, ["Connected to " ++ netloc], some "logo")
    else
      (online, [], none)
  else
    if online = true then
      (false,
       [if status = 429 then "API limit exceeded for " ++ netloc
        else "Disconnected from " ++ netloc],
       some "logo_offline")
    else
      (online, [], none)

/-! ### Exit-code classifier -/

/-- `s` contains `sub` as a contiguous substring. -/
def strContains (s sub : String) : Prop :=
  ∃ pre post : List Char, s.data = pre ++ (sub.data ++ post)

/-- `check_daemon_exit_code` (lines 286-318).  `poll` is the result of
`daemon_process.poll()` (`none` while the process runs); `deps_path` is
`dependencies.get_dependencies_path()` and `log_path` the per-port log file
path. -/
def check_daemon_exit_code (poll : Option Int) (deps_path log_path : String) :
    Option Int × String :=
  match poll with
  | none => (none, "Daemon process is running.")
  | some exit_code =>
    let message :=
      if exit_code = 101 then
        "failed to import AIOHTTP. Try to delete " ++ deps_path ++ " and restart Blender."
      else if exit_code = 102 then
        "failed to import CERTIFI. Try to delete " ++ deps_path ++ " and restart Blender."
      else if exit_code = 100 then
        "unexpected OSError. Please report a bug and paste content of log " ++ log_path
      else if exit_code = 111 then
        "unable to bind any socket. Check your antivirus/firewall and unblock BlenderKit."
      else if exit_code = 113 then
        "cannot open port. Check your antivirus/firewall and unblock BlenderKit."
      else if exit_code = 114 then
        "invalid pointer address. Please report a bug and paste content of log " ++ log_path
      else if exit_code = 121 then
        "semaphore timeout exceeded. In preferences set IP version to \"Use only IPv4\"."
      else if exit_code = 148 then
        "address already in use. Select different daemon port in preferences."
      else if exit_code = 149 then
        "address already in use. Select different daemon port in preferences."
      else
        "unexpected Exception. Please report a bug and paste content of log " ++ log_path
    (some exit_code, message)

/-! ### Process launcher -/

/-- Outcome of the `open(log_path)` + `subprocess.Popen` block in
`start_daemon_server`: a started process with its pid, or one of the caught
exception classes with the exception's text (`winerror` only meaningful on
Windows). -/
inductive SpawnResult where
  | ok (pid : Nat)
  | permissionError (e : String)
  | osError (winerror : Option Int) (e : String)
  | otherError (e : String)
  deriving Repr, DecidableEq

/-- A `bk_logger` event. -/
inductive LogEvent where
  | warning (msg : String)
  | info (msg : String)
  deriving Repr, DecidableEq

/-- Observable result of `start_daemon_server`: the stored process handle
(`global_vars.daemon_process`) after the call, the re-raised exception if
any, the log events, the user-visible reports, and whether the spawn was
attempted at all. -/
structure StartResult where
  daemon_process : Option Nat
  raised : Option String
  logs : List LogEvent
  user_reports : List String
  spawn_attempted : Bool
  deriving Repr, DecidableEq

/-- `start_daemon_server` (lines 321-393).  `python_check_rc` is the exit
code of the pre-flight `sys.executable --version` run; `spawn` the outcome of
the `Popen` block; `prior_process` the stored handle before the call. -/
def start_daemon_server (isWindows : Bool) (python_check_rc : Int)
    (spawn : SpawnResult) (daemon_dir address log_path : String)
    (prior_process : Option Nat) : StartResult :=
  let preflight_logs : List LogEvent :=
    if python_check_rc ≠ 0 then
      [LogEvent.warning ("Error checking Python interpreter, exit code: " ++
        toString python_check_rc)]
    else []
  match spawn with
  | SpawnResult.ok pid =>
    if python_check_rc = 0 then
      { daemon_process := some pid, raised := none,
        logs := preflight_logs ++
          [LogEvent.info ("Daemon server starting on address " ++ address ++
            ", log file for errors located at: " ++ log_path)],
        user_reports := [], spawn_attempted := true }
    else
      { daemon_process := some pid, raised := none,
        logs := preflight_logs ++
          [LogEvent.warning ("Tried to start daemon server on address " ++
            address ++ ", PID: " ++ toString pid ++
            ",\nlog file located at: " ++ log_path)],
        user_reports := ["Due to unsuccessful Python check the daemon server will probably fail to run. Please report a bug at BlenderKit."],
        spawn_attempted := true }
  | SpawnResult.permissionError e =>
    { daemon_process := prior_process, raised := some e,
      logs := preflight_logs,
      user_reports := ["FATAL ERROR: Write access denied to " ++ daemon_dir ++
        ". Check you have write permissions to the directory."],
      spawn_attempted := true }
  | SpawnResult.osError winerror e =>
    if isWindows = false then
      { daemon_process := prior_process, raised := some e,
        logs := preflight_logs, user_reports := [e], spawn_attempted := true }
    else if winerror = some 87 then
      { daemon_process := prior_process, raised := some e,
        logs := preflight_logs,
        user_reports := ["FATAL ERROR: Daemon server blocked from starting. Please check your antivirus or firewall. Error: " ++ e],
        spawn_attempted := true }
    else
      { daemon_process := prior_process, raised := some e,
        logs := preflight_logs, user_reports := [e], spawn_attempted := true }
  | SpawnResult.otherError e =>
    { daemon_process := prior_process, raised := some e,
      logs := preflight_logs,
      user_reports := ["Error: Daemon server failed to start - " ++ e],
      spawn_attempted := true }

/-! ### Helper lemmas -/

theorem pyIndex_eq_none (l : List Nat) (p : Nat) : pyIndex l p = none ↔ p ∉ l := by
  induction l with
  | nil => simp [pyIndex]
  | cons x xs ih =>
    by_cases h : x = p
    · simp [pyIndex, h]
    · simp only [pyIndex, if_neg h, Option.map_eq_none', ih, List.mem_cons]
      constructor
      · rintro hnx (rfl | hmem)
        · exact h rfl
        · exact hnx hmem
      · intro hall hmem
        exact hall (Or.inr hmem)

theorem pyIndex_head (l : List Nat) (p : Nat) (i : Nat)
    (h : pyIndex l p = some i) : (l.drop i).head? = some p := by
  induction l generalizing i with
  | nil => simp [pyIndex] at h
  | cons x xs ih =>
    by_cases hx : x = p
    · simp [pyIndex, hx] at h
      subst h
      simp [hx]
    · simp only [pyIndex, if_neg hx, Option.map_eq_some'] at h
      obtain ⟨j, hj, rfl⟩ := h
      simpa using ih j hj

theorem pyIndex_append (pre post : List Nat) (p : Nat) (hp : p ∉ pre) :
    pyIndex (pre ++ p :: post) p = some pre.length := by
  induction pre with
  | nil => simp [pyIndex]
  | cons x xs ih =>
    have hx : x ≠ p := fun h => hp (h ▸ List.mem_cons_self x xs)
    have hxs : p ∉ xs := fun h => hp (List.mem_cons_of_mem x h)
    simp [pyIndex, hx, ih hxs]

theorem reorder_ports_rotation (l : List Nat) (p i : Nat)
    (h : pyIndex l p = some i) :
    reorder_ports l p = some (l.drop i ++ l.take i) := by
  simp [reorder_ports, h]

theorem rotation_perm (l : List Nat) (i : Nat) :
    (l.drop i ++ l.take i).Perm l := by
  have h : (l.drop i ++ l.take i).Perm (l.take i ++ l.drop i) :=
    List.perm_append_comm
  rwa [List.take_append_drop] at h

theorem reorder_ports_append (pre post : List Nat) (p : Nat) (hp : p ∉ pre) :
    reorder_ports (pre ++ p :: post) p = some ((p :: post) ++ pre) := by
  rw [reorder_ports_rotation (pre ++ p :: post) p pre.length
    (pyIndex_append pre post p hp)]
  rw [List.drop_left, List.take_left]

theorem fallback_success (net : Nat → NetResult) (pre : List Nat) (p : Nat)
    (post : List Nat) (r : String)
    (hpre : ∀ q ∈ pre, ∃ e, net q = NetResult.err e)
    (hok : net p = NetResult.ok r) :
    ∀ exc, fallback_loop net (pre ++ p :: post) exc =
      (Except.ok (r, p), pre ++ [p]) := by
  induction pre with
  | nil =>
    intro exc
    simp [fallback_loop, hok]
  | cons x xs ih =>
    intro exc
    obtain ⟨e, he⟩ := hpre x (List.mem_cons_self x xs)
    have hxs : ∀ q ∈ xs, ∃ e, net q = NetResult.err e :=
      fun q hq => hpre q (List.mem_cons_of_mem x hq)
    simp [fallback_loop, he, ih hxs]

theorem fallback_fail (net : Nat → NetResult) (init : List Nat) (q : Nat)
    (e : String)
    (hinit : ∀ x ∈ init, ∃ e', net x = NetResult.err e')
    (hq : net q = NetResult.err e) :
    ∀ exc, fallback_loop net (init ++ [q]) exc =
      (Except.error (some e), init ++ [q]) := by
  induction init with
  | nil =>
    intro exc
    simp [fallback_loop, hq]
  | cons x xs ih =>
    intro exc
    obtain ⟨e', he'⟩ := hinit x (List.mem_cons_self x xs)
    have hxs : ∀ y ∈ xs, ∃ e', net y = NetResult.err e' :=
      fun y hy => hinit y (List.mem_cons_of_mem x hy)
    simp [fallback_loop, he', ih hxs]

theorem dictSet_mem (d : List (String × JsonVal)) (k : String) (v : JsonVal) :
    (k, v) ∈ dictSet d k v := by
  unfold dictSet
  split
  case isTrue h =>
    rcases List.any_eq_true.mp h with ⟨kv, hmem, hk⟩
    have hk' : kv.1 = k := of_decide_eq_true hk
    exact List.mem_map.mpr ⟨kv, hmem, by simp [hk']⟩
  case isFalse h =>
    exact List.mem_append_right _ (List.mem_singleton.mpr rfl)

theorem dictSet_any (d : List (String × JsonVal)) (k : String) (v : JsonVal) :
    (dictSet d k v).any (fun kv => kv.1 = k && kv.2 = v) = true :=
  List.any_eq_true.mpr ⟨(k, v), dictSet_mem d k v, by simp⟩

theorem head?_append_left {α : Type} (l l' : List α) (p : α)
    (h : l.head? = some p) : (l ++ l').head? = some p := by
  cases l with
  | nil => simp at h
  | cons y ys => simpa using h

theorem string_data_append (a b : String) : (a ++ b).data = a.data ++ b.data := by
  cases a
  cases b
  rfl

/-! ### Claims -/

/-- C1 counterexample: `reorder_ports` is a left rotation, not
remove-and-prepend.  In the fallback scenario with registry `[80, 81, 82]`,
port 80 failing and port 81 succeeding, port 81's response is returned but
the registry afterwards is `[81, 82, 80]`, not `[81, 80, 82]` as the claim
states; the rotation's tail `[82, 80]` is not the original sequence with 81
removed. -/
theorem C1_counterexample :
    (get_reports (fun q => if q = 81 then NetResult.ok "r81" else NetResult.err "refused")
        ⟨[80, 81, 82], 10⟩).result = Except.ok "r81" ∧
    (get_reports (fun q => if q = 81 then NetResult.ok "r81" else NetResult.err "refused")
        ⟨[80, 81, 82], 10⟩).gvars.DAEMON_PORTS = [81, 82, 80] ∧
    [81, 82, 80] ≠ [81, 80, 82] ∧
    reorder_ports [80, 81, 82] 81 = some [81, 82, 80] ∧
    some [81, 82, 80] ≠ some (81 :: List.erase [80, 81, 82] 81) := by
  refine ⟨rfl, by decide, by decide, by decide, by decide⟩

/-- C1 (amended): for every registry containing `p`, `reorder_ports p`
succeeds and yields the left rotation of the registry at `p`'s index: its
first element is `p` and it is a permutation of the original registry.  In
the report-fetch fallback with registry `[80, 81, 82]`, port 80 failing and
port 81 succeeding, the value returned is port 81's response and the registry
afterwards is the rotation `[81, 82, 80]`. -/
theorem C1_reorder_is_rotation :
    (∀ (ports : List Nat) (p : Nat), p ∈ ports →
      ∃ i, pyIndex ports p = some i ∧
        reorder_ports ports p = some (ports.drop i ++ ports.take i) ∧
        (ports.drop i ++ ports.take i).head? = some p ∧
        (ports.drop i ++ ports.take i).Perm ports) ∧
    (get_reports (fun q => if q = 81 then NetResult.ok "r81" else NetResult.err "refused")
        ⟨[80, 81, 82], 10⟩).result = Except.ok "r81" ∧
    (get_reports (fun q => if q = 81 then NetResult.ok "r81" else NetResult.err "refused")
        ⟨[80, 81, 82], 10⟩).gvars.DAEMON_PORTS = [81, 82, 80] := by
  refine ⟨?_, rfl, by decide⟩
  intro ports p hp
  cases h : pyIndex ports p with
  | none => exact absurd hp ((pyIndex_eq_none ports p).mp h)
  | some i =>
    exact ⟨i, rfl, reorder_ports_rotation ports p i h,
      head?_append_left _ _ p (pyIndex_head ports p i h), rotation_perm ports i⟩

/-- C1 witness: the amended rotation property evaluated on the registry
`[80, 81, 82]` with port 81. -/
theorem C1_reorder_is_rotation_witness :
    pyIndex [80, 81, 82] 81 = some 1 ∧
    reorder_ports [80, 81, 82] 81 = some [81, 82, 80] ∧
    ([81, 82, 80] : List Nat).head? = some 81 ∧
    ([81, 82, 80] : List Nat).Perm [80, 81, 82] := by
  obtain ⟨i, h1, h2, h3, h4⟩ :=
    C1_reorder_is_rotation.1 [80, 81, 82] 81 (by decide)
  have e1 : pyIndex [80, 81, 82] 81 = some 1 := by decide
  have hi : i = 1 := by
    rw [e1] at h1
    exact (Option.some.injEq _ _ ▸ h1).symm
  subst hi
  exact ⟨e1, h2, h3, h4⟩

/-- C10: calling `reorder_ports` with a port absent from the registry raises
(the `list.index` lookup fails with `ValueError`) and leaves `DAEMON_PORTS`
exactly as it was: the failed reorder is atomic because the index lookup
precedes the registry assignment. -/
theorem C10_reorder_absent_atomic :
    ∀ (g : GlobalVars) (p : Nat), p ∉ g.DAEMON_PORTS →
      reorder_ports_state g p = (Except.error (some "ValueError"), g) := by
  intro g p hp
  simp [reorder_ports_state, reorder_ports, (pyIndex_eq_none _ _).mpr hp]

/-- C10 witness: reordering to the absent port 99 on registry `[80, 81, 82]`
raises and leaves the globals untouched. -/
theorem C10_reorder_absent_atomic_witness :
    reorder_ports_state ⟨[80, 81, 82], 0⟩ 99 =
      (Except.error (some "ValueError"), ⟨[80, 81, 82], 0⟩) :=
  C10_reorder_absent_atomic ⟨[80, 81, 82], 0⟩ 99 (by decide)

/-- C2: while `DAEMON_FAILED_REPORTS` is below 10, `get_reports` queries only
the current default port (the registry head): a success returns its result, a
failure propagates the error (and the report-fetch caller, modelled from the
spec, increments the counter).  Once the counter is 10 or more, the registry
is iterated in its current order: the first succeeding port is promoted via
`reorder_ports` and its result returned immediately (the loop stops there),
per-port failures are skipped, and if every port fails the last-seen error is
raised with the registry untouched. -/
theorem C2_report_fetch_policy :
    (∀ (net : Nat → NetResult) (g : GlobalVars) (p : Nat) (rest : List Nat),
      g.DAEMON_FAILED_REPORTS < 10 → g.DAEMON_PORTS = p :: rest →
      (get_reports net g).queried = [p] ∧
      (∀ r, net p = NetResult.ok r →
        (get_reports net g).result = Except.ok r ∧
        (get_reports net g).gvars = g) ∧
      (∀ e, net p = NetResult.err e →
        (get_reports net g).result = Except.error (some e) ∧
        (get_reports net g).gvars = g ∧
        (get_reports_timer net g).result = Except.error (some e) ∧
        (get_reports_timer net g).gvars.DAEMON_FAILED_REPORTS =
          g.DAEMON_FAILED_REPORTS + 1 ∧
        (get_reports_timer net g).gvars.DAEMON_PORTS = g.DAEMON_PORTS)) ∧
    (∀ (net : Nat → NetResult) (g : GlobalVars) (pre : List Nat) (p : Nat)
        (post : List Nat) (r : String),
      10 ≤ g.DAEMON_FAILED_REPORTS →
      g.DAEMON_PORTS = pre ++ p :: post →
      (∀ q ∈ pre, ∃ e, net q = NetResult.err e) →
      net p = NetResult.ok r →
      (get_reports net g).result = Except.ok r ∧
      (get_reports net g).queried = pre ++ [p] ∧
      (get_reports net g).gvars.DAEMON_PORTS = (p :: post) ++ pre) ∧
    (∀ (net : Nat → NetResult) (g : GlobalVars) (init : List Nat) (q : Nat)
        (e : String),
      10 ≤ g.DAEMON_FAILED_REPORTS →
      g.DAEMON_PORTS = init ++ [q] →
      (∀ x ∈ init, ∃ e', net x = NetResult.err e') →
      net q = NetResult.err e →
      (get_reports net g).result = Except.error (some e) ∧
      (get_reports net g).gvars = g ∧
      (get_reports net g).queried = g.DAEMON_PORTS) := by
  refine ⟨?_, ?_, ?_⟩
  · intro net g p rest hlt hports
    have hhead : g.DAEMON_PORTS.head? = some p := by rw [hports]; rfl
    refine ⟨?_, ?_, ?_⟩
    · simp only [get_reports, if_pos hlt, hhead]
      cases hnet : net p <;> simp
    · intro r hr
      simp [get_reports, if_pos hlt, hhead, hr]
    · intro e he
      simp [get_reports, get_reports_timer, if_pos hlt, hhead, he]
  · intro net g pre p post r hge hports hpre hok
    have hlt : ¬ g.DAEMON_FAILED_REPORTS < 10 := by omega
    have hpnotin : p ∉ pre := by
      intro hmem
      obtain ⟨e, he⟩ := hpre p hmem
      rw [hok] at he
      exact NetResult.noConfusion he
    have hloop := fallback_success net pre p post r hpre hok none
    simp [get_reports, if_neg hlt, hports, hloop,
      reorder_ports_append pre post p hpnotin]
  · intro net g init q e hge hports hinit he
    have hlt : ¬ g.DAEMON_FAILED_REPORTS < 10 := by omega
    have hloop := fallback_fail net init q e hinit he none
    simp [get_reports, if_neg hlt, hports, hloop]

/-- C2 witness: the three regimes evaluated concretely.  Counter 0, registry
`[80, 81]`, all ports failing: only port 80 is queried, the error propagates
and the modelled caller bumps the counter to 1.  Counter 10, registry
`[80, 81, 82]`, port 80 failing and 81 succeeding: port 81's report is
returned and promoted.  Counter 10, both ports of `[80, 81]` failing: the
last error is raised and the registry is untouched. -/
theorem C2_report_fetch_policy_witness :
    (get_reports (fun _ => NetResult.err "boom") ⟨[80, 81], 0⟩).queried = [80] ∧
    (get_reports (fun _ => NetResult.err "boom") ⟨[80, 81], 0⟩).result =
      Except.error (some "boom") ∧
    (get_reports_timer (fun _ => NetResult.err "boom")
        ⟨[80, 81], 0⟩).gvars.DAEMON_FAILED_REPORTS = 0 + 1 ∧
    (get_reports (fun q => if q = 81 then NetResult.ok "r81" else NetResult.err "refused")
        ⟨[80, 81, 82], 10⟩).result = Except.ok "r81" ∧
    (get_reports (fun q => if q = 81 then NetResult.ok "r81" else NetResult.err "refused")
        ⟨[80, 81, 82], 10⟩).queried = [80] ++ [81] ∧
    (get_reports (fun q => if q = 81 then NetResult.ok "r81" else NetResult.err "refused")
        ⟨[80, 81, 82], 10⟩).gvars.DAEMON_PORTS = (81 :: [82]) ++ [80] ∧
    (get_reports (fun q => if q = 80 then NetResult.err "e80" else NetResult.err "e81")
        ⟨[80, 81], 10⟩).result = Except.error (some "e81") ∧
    (get_reports (fun q => if q = 80 then NetResult.err "e80" else NetResult.err "e81")
        ⟨[80, 81], 10⟩).gvars = ⟨[80, 81], 10⟩ := by
  have ha := C2_report_fetch_policy.1 (fun _ => NetResult.err "boom")
    ⟨[80, 81], 0⟩ 80 [81] (by decide) rfl
  have hb := C2_report_fetch_policy.2.1
    (fun q => if q = 81 then NetResult.ok "r81" else NetResult.err "refused")
    ⟨[80, 81, 82], 10⟩ [80] 81 [82] "r81" (by decide) rfl
    (by
      intro q hq
      have hq80 : q = 80 := by
        cases hq with
        | head => rfl
        | tail _ h => cases h
      subst hq80
      exact ⟨"refused", rfl⟩)
    rfl
  have hc := C2_report_fetch_policy.2.2
    (fun q => if q = 80 then NetResult.err "e80" else NetResult.err "e81")
    ⟨[80, 81], 10⟩ [80] 81 "e81" (by decide) rfl
    (by
      intro x hx
      have hx80 : x = 80 := by
        cases hx with
        | head => rfl
        | tail _ h => cases h
      subst hx80
      exact ⟨"e80", rfl⟩)
    rfl
  obtain ⟨he1, he2, he3, he4, he5⟩ := ha.2.2 "boom" rfl
  exact ⟨ha.1, he1, he4, hb.1, hb.2.1, hb.2.2, hc.1, hc.2.1⟩

/-- C3 counterexample: the comments, profile, notification, report-usages and
download-url requests are issued with no explicit timeout and no proxies
keyword at all, so they do not carry the fixed `(0.1 s, 0.5 s)` pair nor the
forced empty proxies mapping. -/
theorem C3_counterexample :
    (get_comments_req (JsonVal.val "a1") (JsonVal.val "k")).timeout = none ∧
    (get_comments_req (JsonVal.val "a1") (JsonVal.val "k")).proxies = none ∧
    (report_usages_req []).timeout = none ∧
    (report_usages_req []).proxies = none ∧
    (fetch_gravatar_image_req []).timeout = none ∧
    (get_user_profile_req (JsonVal.val "k")).timeout = none ∧
    (mark_notification_read_req (JsonVal.val "n")).timeout = none ∧
    (get_download_url_req (JsonVal.val "ad") (JsonVal.val "p")).timeout = none ∧
    (none : Option (Nat × Nat)) ≠ some TIMEOUT ∧
    (none : Option (List (String × String))) ≠ some [] := by
  refine ⟨rfl, rfl, rfl, rfl, rfl, rfl, rfl, rfl, by decide, by decide⟩

/-- C3 (amended): the report, search, download, upload, kill-task,
code-verifier, token-refresh, liveness-probe, quit-notification and shutdown
requests are sent with the fixed timeout pair (connect 100 ms, read 500 ms)
and the forced empty proxies mapping; the gravatar, user-profile, comments,
notification, report-usages and download-url requests pass no explicit
timeout and no proxies override (they use the library defaults and the
ambient proxy configuration). -/
theorem C3_timeout_and_proxy_policy :
    ∀ (data report : List (String × JsonVal)) (a b c d : JsonVal)
      (s1 s2 : String),
      ((get_reports_req s1 s2).timeout = some TIMEOUT ∧
        (get_reports_req s1 s2).proxies = some []) ∧
      ((search_asset_req data).timeout = some TIMEOUT ∧
        (search_asset_req data).proxies = some []) ∧
      ((download_asset_req data).timeout = some TIMEOUT ∧
        (download_asset_req data).proxies = some []) ∧
      ((upload_asset_req a b c).timeout = some TIMEOUT ∧
        (upload_asset_req a b c).proxies = some []) ∧
      ((kill_download_req a).timeout = some TIMEOUT ∧
        (kill_download_req a).proxies = some []) ∧
      ((send_code_verifier_req a).timeout = some TIMEOUT ∧
        (send_code_verifier_req a).proxies = some []) ∧
      ((refresh_token_req a).timeout = some TIMEOUT ∧
        (refresh_token_req a).proxies = some []) ∧
      (daemon_is_alive_req.timeout = some TIMEOUT ∧
        daemon_is_alive_req.proxies = some []) ∧
      (report_blender_quit_req.timeout = some TIMEOUT ∧
        report_blender_quit_req.proxies = some []) ∧
      (kill_daemon_server_req.timeout = some TIMEOUT ∧
        kill_daemon_server_req.proxies = some []) ∧
      ((fetch_gravatar_image_req data).timeout = none ∧
        (fetch_gravatar_image_req data).proxies = none) ∧
      ((get_user_profile_req a).timeout = none ∧
        (get_user_profile_req a).proxies = none) ∧
      ((get_comments_req a b).timeout = none ∧
        (get_comments_req a b).proxies = none) ∧
      ((create_comment_req a b c d).timeout = none ∧
        (create_comment_req a b c d).proxies = none) ∧
      ((feedback_comment_req a b c d).timeout = none ∧
        (feedback_comment_req a b c d).proxies = none) ∧
      ((mark_comment_private_req a b c d).timeout = none ∧
        (mark_comment_private_req a b c d).proxies = none) ∧
      ((mark_notification_read_req a).timeout = none ∧
        (mark_notification_read_req a).proxies = none) ∧
      ((report_usages_req report).timeout = none ∧
        (report_usages_req report).proxies = none) ∧
      ((get_download_url_req a b).timeout = none ∧
        (get_download_url_req a b).proxies = none) := by
  intro data report a b c d s1 s2
  exact ⟨⟨rfl, rfl⟩, ⟨rfl, rfl⟩, ⟨rfl, rfl⟩, ⟨rfl, rfl⟩, ⟨rfl, rfl⟩,
    ⟨rfl, rfl⟩, ⟨rfl, rfl⟩, ⟨rfl, rfl⟩, ⟨rfl, rfl⟩, ⟨rfl, rfl⟩, ⟨rfl, rfl⟩,
    ⟨rfl, rfl⟩, ⟨rfl, rfl⟩, ⟨rfl, rfl⟩, ⟨rfl, rfl⟩, ⟨rfl, rfl⟩, ⟨rfl, rfl⟩,
    ⟨rfl, rfl⟩, ⟨rfl, rfl⟩⟩

/-- C4 counterexample: the code-verifier, kill-task and token-refresh request
bodies carry no `app_id` field, and the shutdown request has no body at all,
so not every request sent to the daemon includes the caller-process identity
field. -/
theorem C4_counterexample :
    hasAppId (send_code_verifier_req (JsonVal.val "v")) = false ∧
    hasAppId (kill_download_req (JsonVal.val "t")) = false ∧
    hasAppId (refresh_token_req (JsonVal.val "r")) = false ∧
    kill_daemon_server_req.body = none := by
  refine ⟨by decide, by decide, by decide, rfl⟩

/-- C4 (amended): the search, download, upload, gravatar, user-profile,
comments, notification, report-usages, download-url and quit-notification
request bodies all include `app_id` set to the calling process's pid, and the
report-fetch body carries the caller-supplied `app_id`; but the kill-task,
code-verifier and token-refresh bodies carry no `app_id`, and the shutdown
request and liveness probe send no body. -/
theorem C4_app_id_policy :
    ∀ (data report author : List (String × JsonVal)) (a b c d : JsonVal)
      (s1 s2 : String),
      hasAppId (search_asset_req data) = true ∧
      hasAppId (download_asset_req data) = true ∧
      hasAppId (upload_asset_req a b c) = true ∧
      hasAppId (fetch_gravatar_image_req author) = true ∧
      hasAppId (get_user_profile_req a) = true ∧
      hasAppId (get_comments_req a b) = true ∧
      hasAppId (create_comment_req a b c d) = true ∧
      hasAppId (feedback_comment_req a b c d) = true ∧
      hasAppId (mark_comment_private_req a b c d) = true ∧
      hasAppId (mark_notification_read_req a) = true ∧
      hasAppId (report_usages_req report) = true ∧
      hasAppId (get_download_url_req a b) = true ∧
      hasAppId report_blender_quit_req = true ∧
      (get_reports_req s1 s2).body =
        some [("app_id", JsonVal.val s1), ("api_key", JsonVal.val s2)] ∧
      hasAppId (kill_download_req a) = false ∧
      hasAppId (send_code_verifier_req a) = false ∧
      hasAppId (refresh_token_req a) = false ∧
      kill_daemon_server_req.body = none ∧
      daemon_is_alive_req.body = none := by
  intro data report author a b c d s1 s2
  refine ⟨?_, ?_, ?_, ?_, ?_, ?_, ?_, ?_, ?_, ?_, ?_, ?_, ?_, rfl, ?_, ?_, ?_,
    rfl, rfl⟩
  · exact dictSet_any data "app_id" JsonVal.pid
  · exact dictSet_any data "app_id" JsonVal.pid
  · simp [hasAppId, upload_asset_req]
  · exact dictSet_any author "app_id" JsonVal.pid
  · simp [hasAppId, get_user_profile_req]
  · simp [hasAppId, get_comments_req]
  · simp [hasAppId, create_comment_req]
  · simp [hasAppId, feedback_comment_req]
  · simp [hasAppId, mark_comment_private_req]
  · simp [hasAppId, mark_notification_read_req]
  · exact dictSet_any (dictSet report "api_key" JsonVal.apiKeyPref) "app_id"
      JsonVal.pid
  · simp [hasAppId, get_download_url_req]
  · simp [hasAppId, report_blender_quit_req]
  · simp [hasAppId, kill_download_req]
  · simp [hasAppId, send_code_verifier_req]
  · simp [hasAppId, refresh_token_req]

/-- C5: `check_daemon_exit_code` maps exit codes per the fixed table: the
message for 111 contains "firewall", the message for 149 contains "in use",
any unmapped code yields the generic "unexpected" message, and when the
process is still running (poll yields no exit code) the result is the
distinguished still-running pair `(none, "Daemon process is running.")`
rather than a diagnostic message. -/
theorem C5_exit_code_classifier :
    ∀ (deps_path log_path : String),
      strContains (check_daemon_exit_code (some 111) deps_path log_path).2
        "firewall" ∧
      (check_daemon_exit_code (some 111) deps_path log_path).1 = some 111 ∧
      strContains (check_daemon_exit_code (some 149) deps_path log_path).2
        "in use" ∧
      (check_daemon_exit_code (some 149) deps_path log_path).1 = some 149 ∧
      check_daemon_exit_code none deps_path log_path =
        (none, "Daemon process is running.") ∧
      (∀ c : Int,
        c ∉ ([100, 101, 102, 111, 113, 114, 121, 148, 149] : List Int) →
        strContains (check_daemon_exit_code (some c) deps_path log_path).2
          "unexpected" ∧
        (check_daemon_exit_code (some c) deps_path log_path).1 = some c) := by
  intro deps_path log_path
  refine ⟨?_, rfl, ?_, rfl, rfl, ?_⟩
  · have hmsg : (check_daemon_exit_code (some 111) deps_path log_path).2 =
        "unable to bind any socket. Check your antivirus/firewall and unblock BlenderKit." :=
      rfl
    rw [strContains, hmsg]
    exact ⟨"unable to bind any socket. Check your antivirus/".data,
      " and unblock BlenderKit.".data, by decide⟩
  · have hmsg : (check_daemon_exit_code (some 149) deps_path log_path).2 =
        "address already in use. Select different daemon port in preferences." :=
      rfl
    rw [strContains, hmsg]
    exact ⟨"address already ".data,
      ". Select different daemon port in preferences.".data, by decide⟩
  · intro c hc
    have h101 : c ≠ 101 := fun h => hc (by simp [h])
    have h102 : c ≠ 102 := fun h => hc (by simp [h])
    have h100 : c ≠ 100 := fun h => hc (by simp [h])
    have h111 : c ≠ 111 := fun h => hc (by simp [h])
    have h113 : c ≠ 113 := fun h => hc (by simp [h])
    have h114 : c ≠ 114 := fun h => hc (by simp [h])
    have h121 : c ≠ 121 := fun h => hc (by simp [h])
    have h148 : c ≠ 148 := fun h => hc (by simp [h])
    have h149 : c ≠ 149 := fun h => hc (by simp [h])
    constructor
    · simp only [check_daemon_exit_code, if_neg h101, if_neg h102, if_neg h100,
        if_neg h111, if_neg h113, if_neg h114, if_neg h121, if_neg h148,
        if_neg h149]
      refine ⟨[], " Exception. Please report a bug and paste content of log ".data
        ++ log_path.data, ?_⟩
      rw [string_data_append]
      have hsplit :
          ("unexpected Exception. Please report a bug and paste content of log ").data =
          ("unexpected").data ++
            (" Exception. Please report a bug and paste content of log ").data := by
        decide
      rw [hsplit, List.nil_append, List.append_assoc]
    · simp [check_daemon_exit_code]

/-- C5 witness: the classifier evaluated at the unmapped exit code 37 with
concrete paths yields the generic "unexpected" message. -/
theorem C5_exit_code_classifier_witness :
    strContains (check_daemon_exit_code (some 37) "deps" "log.txt").2
      "unexpected" ∧
    (check_daemon_exit_code (some 37) "deps" "log.txt").1 = some 37 :=
  (C5_exit_code_classifier "deps" "log.txt").2.2.2.2.2 37 (by decide)

/-- C6: `daemon_is_alive` returns `(true, message)` with the remote-reported
process identity (the response body) exactly when the HTTP status is 200; any
other status yields `(false, message)` carrying the status code; a
connection-level failure is caught and yields `(false, message)` carrying the
error description without raising; any other transport exception
propagates. -/
theorem C6_daemon_is_alive :
    ∀ (status : Nat) (text err errType e : String),
      (status = 200 →
        daemon_is_alive (ProbeOutcome.response status text) =
          Except.ok (true, "Server alive, PID: " ++ text)) ∧
      (status ≠ 200 →
        daemon_is_alive (ProbeOutcome.response status text) =
          Except.ok (false, "Server response not 200: " ++ toString status)) ∧
      (∀ (b : Bool) (msg : String),
        daemon_is_alive (ProbeOutcome.response status text) =
          Except.ok (b, msg) → (b = true ↔ status = 200)) ∧
      daemon_is_alive (ProbeOutcome.connectionError err errType) =
        Except.ok (false, "EXCEPTION OCCURED:\", " ++ err ++ ", " ++ errType) ∧
      daemon_is_alive (ProbeOutcome.otherError e) = Except.error e := by
  intro status text err errType e
  refine ⟨?_, ?_, ?_, rfl, rfl⟩
  · intro h
    simp [daemon_is_alive, h]
  · intro h
    simp [daemon_is_alive, h]
  · intro b msg hok
    by_cases h : status = 200
    · simp [daemon_is_alive, h] at hok
      simp [hok.1, h]
    · simp [daemon_is_alive, h] at hok
      simp [hok.1, h]

/-- C6 witness: a 200 response with body "4242" reports alive with the pid, a
404 response reports not alive with the status code, a connection error is
caught, and a timeout-style exception propagates. -/
theorem C6_daemon_is_alive_witness :
    daemon_is_alive (ProbeOutcome.response 200 "4242") =
      Except.ok (true, "Server alive, PID: " ++ "4242") ∧
    daemon_is_alive (ProbeOutcome.response 404 "nf") =
      Except.ok (false, "Server response not 200: " ++ toString 404) ∧
    (true = true ↔ (200 : Nat) = 200) ∧
    daemon_is_alive (ProbeOutcome.connectionError "refused" "ConnectionError") =
      Except.ok (false,
        "EXCEPTION OCCURED:\", " ++ "refused" ++ ", " ++ "ConnectionError") ∧
    daemon_is_alive (ProbeOutcome.otherError "timeout") =
      Except.error "timeout" := by
  refine ⟨(C6_daemon_is_alive 200 "4242" "x" "y" "z").1 rfl,
    (C6_daemon_is_alive 404 "nf" "x" "y" "z").2.1 (by decide),
    (C6_daemon_is_alive 200 "4242" "x" "y" "z").2.2.1 true
      ("Server alive, PID: " ++ "4242") ?_,
    (C6_daemon_is_alive 200 "4242" "refused" "ConnectionError" "z").2.2.2.1,
    (C6_daemon_is_alive 200 "4242" "x" "y" "timeout").2.2.2.2⟩
  exact (C6_daemon_is_alive 200 "4242" "x" "y" "z").1 rfl

/-- C7: the status notifier emits a notice only on a state change: with the
stored flag false a 200 probe emits one connected notice and sets the flag
true; with the flag true a non-200 probe emits one disconnected notice (the
distinct rate-limit notice when the status is exactly 429) and sets the flag
false; probes reporting the same state as the stored flag emit nothing and
leave the flag and the UI indicator untouched. -/
theorem C7_status_notifier :
    ∀ (netloc : String) (status : Nat),
      handle_daemon_status_task netloc false 200 =
        (true, ["Connected to " ++ netloc], some "logo") ∧
      (status ≠ 200 →
        handle_daemon_status_task netloc true status =
          (false,
           [if status = 429 then "API limit exceeded for " ++ netloc
            else "Disconnected from " ++ netloc],
           some "logo_offline")) ∧
      handle_daemon_status_task netloc true 429 =
        (false, ["API limit exceeded for " ++ netloc], some "logo_offline") ∧
      ("API limit exceeded for " ++ netloc) ≠ ("Disconnected from " ++ netloc) ∧
      handle_daemon_status_task netloc true 200 = (true, [], none) ∧
      (status ≠ 200 →
        handle_daemon_status_task netloc false status = (false, [], none)) := by
  intro netloc status
  refine ⟨rfl, ?_, rfl, ?_, rfl, ?_⟩
  · intro h
    simp [handle_daemon_status_task, h]
  · intro h
    have hlen := congrArg (fun s => s.data.length) h
    simp only [string_data_append, List.length_append] at hlen
    have h1 : ("API limit exceeded for ").data.length = 23 := by decide
    have h2 : ("Disconnected from ").data.length = 18 := by decide
    rw [h1, h2] at hlen
    omega
  · intro h
    simp [handle_daemon_status_task, h]

/-- C7 witness: concrete transition table for server "bk.example": a 503
probe while online emits the one disconnected notice; a 429 probe while
online emits the distinct rate-limit notice; repeated same-state probes emit
nothing. -/
theorem C7_status_notifier_witness :
    handle_daemon_status_task "bk.example" false 200 =
      (true, ["Connected to " ++ "bk.example"], some "logo") ∧
    handle_daemon_status_task "bk.example" true 503 =
      (false, [if (503 : Nat) = 429 then "API limit exceeded for " ++ "bk.example"
               else "Disconnected from " ++ "bk.example"], some "logo_offline") ∧
    handle_daemon_status_task "bk.example" true 429 =
      (false, ["API limit exceeded for " ++ "bk.example"], some "logo_offline") ∧
    handle_daemon_status_task "bk.example" true 200 = (true, [], none) ∧
    handle_daemon_status_task "bk.example" false 503 = (false, [], none) := by
  refine ⟨(C7_status_notifier "bk.example" 503).1,
    (C7_status_notifier "bk.example" 503).2.1 (by decide),
    (C7_status_notifier "bk.example" 503).2.2.1,
    (C7_status_notifier "bk.example" 503).2.2.2.2.1,
    (C7_status_notifier "bk.example" 503).2.2.2.2.2 (by decide)⟩

/-- C8: every failure path of the daemon spawn in `start_daemon_server` —
write-permission error, the Windows "parameter is incorrect" OS error 87, any
other OS-level error on either platform, and any other unexpected
exception — both emits a user-visible report and re-raises the exception to
the caller; no spawn failure is silently dropped. -/
theorem C8_spawn_failures_reported_and_reraised :
    ∀ (isWindows : Bool) (rc : Int) (daemon_dir address log_path : String)
      (prior : Option Nat) (e : String) (winerror : Option Int),
      ((start_daemon_server isWindows rc (SpawnResult.permissionError e)
          daemon_dir address log_path prior).raised = some e ∧
       (start_daemon_server isWindows rc (SpawnResult.permissionError e)
          daemon_dir address log_path prior).user_reports ≠ []) ∧
      ((start_daemon_server isWindows rc (SpawnResult.osError winerror e)
          daemon_dir address log_path prior).raised = some e ∧
       (start_daemon_server isWindows rc (SpawnResult.osError winerror e)
          daemon_dir address log_path prior).user_reports ≠ []) ∧
      ((start_daemon_server isWindows rc (SpawnResult.otherError e)
          daemon_dir address log_path prior).raised = some e ∧
       (start_daemon_server isWindows rc (SpawnResult.otherError e)
          daemon_dir address log_path prior).user_reports ≠ []) ∧
      (start_daemon_server true rc (SpawnResult.osError (some 87) e)
          daemon_dir address log_path prior).user_reports =
        ["FATAL ERROR: Daemon server blocked from starting. Please check your antivirus or firewall. Error: " ++ e] := by
  intro isWindows rc daemon_dir address log_path prior e winerror
  refine ⟨⟨rfl, by simp [start_daemon_server]⟩, ?_, ⟨rfl, by simp [start_daemon_server]⟩,
    by simp [start_daemon_server]⟩
  cases isWindows with
  | false => exact ⟨rfl, by simp [start_daemon_server]⟩
  | true =>
    by_cases h87 : winerror = some 87
    · subst h87
      exact ⟨rfl, by simp [start_daemon_server]⟩
    · constructor
      · simp [start_daemon_server, h87]
      · simp [start_daemon_server, h87]

/-- C9: when the pre-flight interpreter check exits non-zero,
`start_daemon_server` logs a warning but still proceeds to the spawn; after a
successful spawn it logs a warning (there is no informational success entry
in the log), emits the softer user-visible report, and the process handle is
still stored rather than the caller being blocked. -/
theorem C9_preflight_warns_but_continues :
    ∀ (isWindows : Bool) (rc : Int) (sp : SpawnResult)
      (daemon_dir address log_path : String) (prior : Option Nat) (pid : Nat),
      (rc ≠ 0 →
        (start_daemon_server isWindows rc sp daemon_dir address log_path
          prior).spawn_attempted = true ∧
        (start_daemon_server isWindows rc sp daemon_dir address log_path
          prior).logs.head? = some (LogEvent.warning
            ("Error checking Python interpreter, exit code: " ++ toString rc))) ∧
      (rc ≠ 0 →
        (start_daemon_server isWindows rc (SpawnResult.ok pid) daemon_dir
          address log_path prior).daemon_process = some pid ∧
        (start_daemon_server isWindows rc (SpawnResult.ok pid) daemon_dir
          address log_path prior).raised = none ∧
        (start_daemon_server isWindows rc (SpawnResult.ok pid) daemon_dir
          address log_path prior).logs =
          [LogEvent.warning
            ("Error checking Python interpreter, exit code: " ++ toString rc),
           LogEvent.warning ("Tried to start daemon server on address " ++
            address ++ ", PID: " ++ toString pid ++
            ",\nlog file located at: " ++ log_path)] ∧
        (∀ m, LogEvent.info m ∉ (start_daemon_server isWindows rc
          (SpawnResult.ok pid) daemon_dir address log_path prior).logs) ∧
        (start_daemon_server isWindows rc (SpawnResult.ok pid) daemon_dir
          address log_path prior).user_reports =
          ["Due to unsuccessful Python check the daemon server will probably fail to run. Please report a bug at BlenderKit."]) := by
  intro isWindows rc sp daemon_dir address log_path prior pid
  constructor
  · intro hrc
    constructor
    · cases sp with
      | ok p =>
        by_cases h0 : rc = 0
        · simp [start_daemon_server, h0]
        · simp [start_daemon_server, h0]
      | permissionError e => rfl
      | osError w e =>
        cases isWindows with
        | false => rfl
        | true =>
          by_cases h87 : w = some 87
          · subst h87
            simp [start_daemon_server]
          · simp [start_daemon_server, h87]
      | otherError e => rfl
    · have hlogs : (start_daemon_server isWindows rc sp daemon_dir address
          log_path prior).logs.head? =
          ((if rc ≠ 0 then
              [LogEvent.warning ("Error checking Python interpreter, exit code: "
                ++ toString rc)]
            else []) ++ (start_daemon_server isWindows rc sp daemon_dir address
              log_path prior).logs.drop (if rc ≠ 0 then 1 else 0)).head? := by
        cases sp with
        | ok p =>
          by_cases h0 : rc = 0
          · exact absurd h0 hrc
          · simp [start_daemon_server, h0]
        | permissionError e => simp [start_daemon_server, hrc]
        | osError w e =>
          cases isWindows with
          | false => simp [start_daemon_server, hrc]
          | true =>
            by_cases h87 : w = some 87
            · subst h87
              simp [start_daemon_server, hrc]
            · simp [start_daemon_server, hrc, h87]
        | otherError e => simp [start_daemon_server, hrc]
      rw [hlogs]
      simp [hrc]
  · intro hrc
    refine ⟨?_, ?_, ?_, ?_, ?_⟩ <;>
      simp [start_daemon_server, hrc]

/-- C9 witness: a failed pre-flight check (exit code 1) followed by a
successful spawn of pid 4242 still stores the handle, logs two warnings and
emits the softer report. -/
theorem C9_preflight_warns_but_continues_witness :
    ((start_daemon_server false 1 (SpawnResult.ok 4242) "dir" "addr" "log"
        none).spawn_attempted = true ∧
     (start_daemon_server false 1 (SpawnResult.ok 4242) "dir" "addr" "log"
        none).logs.head? = some (LogEvent.warning
          ("Error checking Python interpreter, exit code: " ++ toString (1 : Int)))) ∧
    (start_daemon_server false 1 (SpawnResult.ok 4242) "dir" "addr" "log"
        none).daemon_process = some 4242 ∧
    (start_daemon_server false 1 (SpawnResult.ok 4242) "dir" "addr" "log"
        none).raised = none := by
  have h := C9_preflight_warns_but_continues false 1 (SpawnResult.ok 4242)
    "dir" "addr" "log" none 4242
  have h1 := h.1 (by decide)
  have h2 := h.2 (by decide)
  exact ⟨h1, h2.1, h2.2.1⟩

end DaemonLib
